import Mathlib

/-!
Shallow embedding of `include/fp/result.hpp` (the fp library): the ErrorCode
enumeration, the Error value type and its comparison operators, the named Error
constructors, the Result container (an alias of tl::expected), the combinators
make_result, has_error, maybe_error and try_to_result, and the fmt display
adapters for Error and Result.
-/

namespace fp

/-- ErrorCode from result.hpp: the closed enumeration of 17 failure
categories, inspired by absl StatusCode. -/
inductive ErrorCode : Type where
  | UNKNOWN
  | CANCELLED
  | INVALID_ARGUMENT
  | TIMEOUT
  | NOT_FOUND
  | ALREADY_EXISTS
  | PERMISSION_DENIED
  | RESOURCE_EXHAUSTED
  | FAILED_PRECONDITION
  | ABORTED
  | OUT_OF_RANGE
  | UNIMPLEMENTED
  | INTERNAL
  | UNAVAILABLE
  | DATA_LOSS
  | UNAUTHENTICATED
  | EXCEPTION
  deriving DecidableEq, Fintype

/-- Error from result.hpp: a value type pairing an ErrorCode with a free-form
diagnostic string. In the source the fields default to UNKNOWN and the empty
string. -/
structure Error : Type where
  code : ErrorCode
  what : String
  deriving DecidableEq

/-- Embedding of the equality operator of Error from result.hpp: it returns
code == other.code && what == other.what. -/
def Error.beq (a b : Error) : Bool :=
  a.code == b.code && a.what == b.what

/-- Embedding of the inequality operator of Error from result.hpp: it returns
code != other.code || what != other.what. -/
def Error.bne (a b : Error) : Bool :=
  a.code != b.code || a.what != b.what

/-- Modelled from the spec: the named constructor Unknown is declared in
result.hpp but its body lives outside src/; per the spec each named
constructor sets code to its variant and what to the provided text. -/
def Unknown (what : String) : Error := ⟨ErrorCode.UNKNOWN, what⟩

/-- Modelled from the spec: named constructor Cancelled (body outside src/). -/
def Cancelled (what : String) : Error := ⟨ErrorCode.CANCELLED, what⟩

/-- Modelled from the spec: named constructor InvalidArgument (body outside
src/). -/
def InvalidArgument (what : String) : Error := ⟨ErrorCode.INVALID_ARGUMENT, what⟩

/-- Modelled from the spec: named constructor Timeout (body outside src/). -/
def Timeout (what : String) : Error := ⟨ErrorCode.TIMEOUT, what⟩

/-- Modelled from the spec: named constructor NotFound (body outside src/). -/
def NotFound (what : String) : Error := ⟨ErrorCode.NOT_FOUND, what⟩

/-- Modelled from the spec: named constructor AlreadyExists (body outside
src/). -/
def AlreadyExists (what : String) : Error := ⟨ErrorCode.ALREADY_EXISTS, what⟩

/-- Modelled from the spec: named constructor PermissionDenied (body outside
src/). -/
def PermissionDenied (what : String) : Error := ⟨ErrorCode.PERMISSION_DENIED, what⟩

/-- Modelled from the spec: named constructor ResourceExhausted (body outside
src/). -/
def ResourceExhausted (what : String) : Error := ⟨ErrorCode.RESOURCE_EXHAUSTED, what⟩

/-- Modelled from the spec: named constructor FailedPrecondition (body outside
src/). -/
def FailedPrecondition (what : String) : Error := ⟨ErrorCode.FAILED_PRECONDITION, what⟩

/-- Modelled from the spec: named constructor Aborted (body outside src/). -/
def Aborted (what : String) : Error := ⟨ErrorCode.ABORTED, what⟩

/-- Modelled from the spec: named constructor OutOfRange (body outside
src/). -/
def OutOfRange (what : String) : Error := ⟨ErrorCode.OUT_OF_RANGE, what⟩

/-- Modelled from the spec: named constructor Unimplemented (body outside
src/). -/
def Unimplemented (what : String) : Error := ⟨ErrorCode.UNIMPLEMENTED, what⟩

/-- Modelled from the spec: named constructor Internal (body outside src/). -/
def Internal (what : String) : Error := ⟨ErrorCode.INTERNAL, what⟩

/-- Modelled from the spec: named constructor Unavailable (body outside
src/). -/
def Unavailable (what : String) : Error := ⟨ErrorCode.UNAVAILABLE, what⟩

/-- Modelled from the spec: named constructor DataLoss (body outside src/). -/
def DataLoss (what : String) : Error := ⟨ErrorCode.DATA_LOSS, what⟩

/-- Modelled from the spec: named constructor Unauthenticated (body outside
src/). -/
def Unauthenticated (what : String) : Error := ⟨ErrorCode.UNAUTHENTICATED, what⟩

/-- Modelled from the spec: named constructor Exception (body outside src/). -/
def Exception (what : String) : Error := ⟨ErrorCode.EXCEPTION, what⟩

/-- Embedding of toStringView from result.hpp: converts an ErrorCode to its
display string via an exhaustive switch over the 17 variants, in the order of
the source's switch. -/
def toStringView (code : ErrorCode) : String :=
  match code with
  | ErrorCode.CANCELLED => "Cancelled"
  | ErrorCode.UNKNOWN => "Unknown"
  | ErrorCode.INVALID_ARGUMENT => "InvalidArgument"
  | ErrorCode.TIMEOUT => "Timeout"
  | ErrorCode.NOT_FOUND => "NotFound"
  | ErrorCode.ALREADY_EXISTS => "AlreadyExists"
  | ErrorCode.PERMISSION_DENIED => "PermissionDenied"
  | ErrorCode.RESOURCE_EXHAUSTED => "ResourceExhausted"
  | ErrorCode.FAILED_PRECONDITION => "FailedPrecondition"
  | ErrorCode.ABORTED => "Aborted"
  | ErrorCode.OUT_OF_RANGE => "OutOfRange"
  | ErrorCode.UNIMPLEMENTED => "Unimplemented"
  | ErrorCode.INTERNAL => "Internal"
  | ErrorCode.UNAVAILABLE => "Unavailable"
  | ErrorCode.DATA_LOSS => "DataLoss"
  | ErrorCode.UNAUTHENTICATED => "Unauthenticated"
  | ErrorCode.EXCEPTION => "Exception"

/-- Embedding of Result<T, E> from result.hpp, an alias of tl::expected<T, E>:
a discriminated union holding either a success value of type T or an error of
type E. The spec treats the expected container as an external, already correct
primitive; this inductive supplies exactly its value-or-error semantics. -/
inductive Result (T E : Type) : Type where
  | value : T → Result T E
  | error : E → Result T E
  deriving DecidableEq

/-- Embedding of the boolean conversion of tl::expected (has_value): true iff
the Result holds the success variant. -/
def has_value {T E : Type} : Result T E → Bool
  | Result.value _ => true
  | Result.error _ => false

/-- Embedding of the value accessor of tl::expected, made total by returning
an Option: some v exactly when the Result holds the success variant. -/
def valueOf {T E : Type} : Result T E → Option T
  | Result.value v => some v
  | Result.error _ => none

/-- Embedding of the error accessor of tl::expected, made total by returning
an Option: some e exactly when the Result holds the error variant. -/
def getError {T E : Type} : Result T E → Option E
  | Result.value _ => none
  | Result.error e => some e

/-- Embedding of make_result from result.hpp: wraps a plain value into the
success variant of a Result. -/
def make_result {T E : Type} (value : T) : Result T E :=
  Result.value value

/-- Embedding of has_error from result.hpp: it returns !exp, where the boolean
conversion of tl::expected is has_value. -/
def has_error {T E : Type} (exp : Result T E) : Bool :=
  !has_value exp

/-- Embedding of maybe_error from result.hpp. The variadic pack of
tl::expected<Args, E>... arguments (value types may differ per argument, one
shared error type E) is modelled as a list of dependent pairs of a value type
and a Result over it; the comma fold over the pack, which runs the lambda on
each argument in left-to-right order, is modelled as a left fold. The lambda
returns early when an error was already found, and otherwise, when
has_error(exp), stores exp.error() — under that guard getError exp.2 is
exactly some of exp.error(). -/
def maybe_error {E : Type} (args : List ((T : Type) × Result T E)) : Option E :=
  args.foldl
    (fun maybe exp =>
      if maybe.isSome then maybe
      else if has_error exp.2 then getError exp.2 else maybe)
    none

/-- Specification-side description of maybe_error, written from the spec's
words: the error payload of the first (left-to-right, by argument position)
Result that holds an error, or none when every Result holds a value. Used
only to compare maybe_error against the spec. -/
def firstError {E : Type} : List ((T : Type) × Result T E) → Option E
  | [] => none
  | exp :: rest =>
    match exp.2 with
    | Result.value _ => firstError rest
    | Result.error e => some e

/-- Model of a std::exception as caught by try_to_result: its runtime type
name (the string abi cxa_current_exception_type name yields) and its what
message. -/
structure CxxException : Type where
  typeName : String
  what : String
  deriving DecidableEq

/-- Embedding of try_to_result from result.hpp. The zero-argument callable f,
which may throw a std::exception, is modelled as a function into Except
CxxException. A normal return is wrapped with make_result; a thrown exception
is caught and converted, via tl::make_unexpected, into the error variant
holding Exception applied to the fmt format of the exception's runtime type
name and message, an opening bracket, the type name, a colon and space, the
message and a closing bracket. -/
def try_to_result {Ret : Type} (f : Unit → Except CxxException Ret) : Result Ret Error :=
  match f () with
  | Except.ok v => make_result v
  | Except.error ex =>
    Result.error (Exception ("[" ++ ex.typeName ++ ": " ++ ex.what ++ "]"))

/-- Embedding of the fmt formatter for fp::Error from result.hpp: it
substitutes toStringView of the code and the what text into the two
placeholders of its format string. -/
def formatError (error : Error) : String :=
  "[Error: [" ++ toStringView error.code ++ "] " ++ error.what ++ "]"

/-- Embedding of the fmt formatter for fp::Result<T> from result.hpp: when the
result has a value it renders the value (T's own formatter is modelled by
renderT) into its value placeholder, otherwise it renders the error via the
Error formatter. -/
def formatResult {T : Type} (renderT : T → String) : Result T Error → String
  | Result.value v => "[Result<T>: value=" ++ renderT v ++ "]"
  | Result.error e => "[Result<T>: " ++ formatError e ++ "]"

/-- Helper: the fold inside maybe_error keeps an already found error
unchanged. -/
theorem maybe_error_foldl_some {E : Type} (e : E)
    (args : List ((T : Type) × Result T E)) :
    args.foldl
      (fun maybe exp =>
        if maybe.isSome then maybe
        else if has_error exp.2 then getError exp.2 else maybe)
      (some e) = some e := by
  induction args with
  | nil => rfl
  | cons x xs ih => simpa using ih

/-- C1: maybe_error returns the error payload of the first (left-to-right, by
argument position) Result that holds an error, and none when every Result
holds a value; in particular on a success, then an error holding NotFound "a",
then an error holding Timeout "b", it returns NotFound "a". -/
theorem maybe_error_first_error :
    (∀ (E : Type) (args : List ((T : Type) × Result T E)),
      maybe_error args = firstError args) ∧
    maybe_error
      [⟨Nat, make_result 1⟩,
       ⟨Nat, Result.error (NotFound "a")⟩,
       ⟨String, Result.error (Timeout "b")⟩] = some (NotFound "a") := by
  constructor
  · intro E args
    induction args with
    | nil => rfl
    | cons x xs ih =>
      obtain ⟨T, r⟩ := x
      cases r with
      | value v =>
        show List.foldl
            (fun maybe exp =>
              if maybe.isSome then maybe
              else if has_error exp.2 then getError exp.2 else maybe)
            none xs = firstError xs
        exact ih
      | error e =>
        show List.foldl
            (fun maybe exp =>
              if maybe.isSome then maybe
              else if has_error exp.2 then getError exp.2 else maybe)
            (some e) xs = some e
        exact maybe_error_foldl_some e xs
  · rfl

/-- C10: maybe_error applied to zero arguments returns none: the empty
aggregation reports no error. -/
theorem maybe_error_empty (E : Type) :
    maybe_error ([] : List ((T : Type) × Result T E)) = none := rfl

/-- C2: try_to_result wraps a normal return of f as a success Result, and
converts a thrown std::exception into an error Result whose Error has code
EXCEPTION and whose what is the bracketed combination of the exception's
runtime type name and message; with message "boom" the resulting what
contains "boom" as a substring. -/
theorem try_to_result_contract (Ret : Type) (f : Unit → Except CxxException Ret) :
    (∀ v : Ret, f () = Except.ok v → try_to_result f = make_result v) ∧
    (∀ ex : CxxException, f () = Except.error ex →
      try_to_result f =
        Result.error
          (Error.mk ErrorCode.EXCEPTION
            ("[" ++ ex.typeName ++ ": " ++ ex.what ++ "]")) ∧
      getError (try_to_result f) =
        some (Exception ("[" ++ ex.typeName ++ ": " ++ ex.what ++ "]")) ∧
      (ex.what = "boom" → ∃ p q : String,
        (Exception ("[" ++ ex.typeName ++ ": " ++ ex.what ++ "]")).what =
          p ++ "boom" ++ q)) := by
  constructor
  · intro v hv
    simp [try_to_result, hv]
  · intro ex hex
    refine ⟨?_, ?_, ?_⟩
    · simp [try_to_result, hex, Exception]
    · simp [try_to_result, hex, getError]
    · intro hboom
      exact ⟨"[" ++ ex.typeName ++ ": ", "]", by rw [Exception, hboom]⟩

/-- Witness for C2: try_to_result at a callable returning 42 and at a callable
throwing a runtime error with message "boom". -/
theorem try_to_result_contract_witness :
    try_to_result (fun _ => Except.ok 42) = make_result 42 ∧
    try_to_result
        (fun _ => (Except.error (CxxException.mk "St13runtime_error" "boom") :
          Except CxxException Nat)) =
      Result.error
        (Error.mk ErrorCode.EXCEPTION
          ("[" ++ "St13runtime_error" ++ ": " ++ "boom" ++ "]")) :=
  ⟨(try_to_result_contract Nat (fun _ => Except.ok 42)).1 42 rfl,
   ((try_to_result_contract Nat
        (fun _ => (Except.error (CxxException.mk "St13runtime_error" "boom") :
          Except CxxException Nat))).2
      (CxxException.mk "St13runtime_error" "boom") rfl).1⟩

/-- C3: toStringView is total on the closed 17-variant ErrorCode enumeration:
each variant renders to a non-empty name, distinct variants render to distinct
names, and each variant renders to its canonical display name. -/
theorem toStringView_total_canonical :
    (∀ c : ErrorCode, 0 < (toStringView c).length) ∧
    (∀ c1 c2 : ErrorCode, toStringView c1 = toStringView c2 → c1 = c2) ∧
    toStringView ErrorCode.UNKNOWN = "Unknown" ∧
    toStringView ErrorCode.CANCELLED = "Cancelled" ∧
    toStringView ErrorCode.INVALID_ARGUMENT = "InvalidArgument" ∧
    toStringView ErrorCode.TIMEOUT = "Timeout" ∧
    toStringView ErrorCode.NOT_FOUND = "NotFound" ∧
    toStringView ErrorCode.ALREADY_EXISTS = "AlreadyExists" ∧
    toStringView ErrorCode.PERMISSION_DENIED = "PermissionDenied" ∧
    toStringView ErrorCode.RESOURCE_EXHAUSTED = "ResourceExhausted" ∧
    toStringView ErrorCode.FAILED_PRECONDITION = "FailedPrecondition" ∧
    toStringView ErrorCode.ABORTED = "Aborted" ∧
    toStringView ErrorCode.OUT_OF_RANGE = "OutOfRange" ∧
    toStringView ErrorCode.UNIMPLEMENTED = "Unimplemented" ∧
    toStringView ErrorCode.INTERNAL = "Internal" ∧
    toStringView ErrorCode.UNAVAILABLE = "Unavailable" ∧
    toStringView ErrorCode.DATA_LOSS = "DataLoss" ∧
    toStringView ErrorCode.UNAUTHENTICATED = "Unauthenticated" ∧
    toStringView ErrorCode.EXCEPTION = "Exception" := by
  refine ⟨by decide, by decide, rfl, rfl, rfl, rfl, rfl, rfl, rfl, rfl, rfl,
    rfl, rfl, rfl, rfl, rfl, rfl, rfl, rfl⟩

/-- Witness for C3: the distinctness component applied at TIMEOUT, and the
non-emptiness component applied at NOT_FOUND. -/
theorem toStringView_total_canonical_witness :
    0 < (toStringView ErrorCode.NOT_FOUND).length ∧
    ErrorCode.TIMEOUT = ErrorCode.TIMEOUT :=
  ⟨toStringView_total_canonical.1 ErrorCode.NOT_FOUND,
   toStringView_total_canonical.2.1 ErrorCode.TIMEOUT ErrorCode.TIMEOUT rfl⟩

/-- C4: Error equality compares both fields structurally: it holds iff code
and what both agree, it is reflexive, symmetric and transitive, and it is
false whenever either field differs; with the listed concrete examples. -/
theorem error_equality_structural :
    (∀ a b : Error, Error.beq a b = true ↔ a.code = b.code ∧ a.what = b.what) ∧
    (∀ a : Error, Error.beq a a = true) ∧
    (∀ a b : Error, Error.beq a b = Error.beq b a) ∧
    (∀ a b c : Error, Error.beq a b = true → Error.beq b c = true →
      Error.beq a c = true) ∧
    (∀ a b : Error, (a.code ≠ b.code ∨ a.what ≠ b.what) →
      Error.beq a b = false) ∧
    Error.beq (NotFound "x") (NotFound "x") = true ∧
    Error.beq (NotFound "x") (NotFound "y") = false ∧
    Error.beq (NotFound "x") (Timeout "x") = false := by
  have key : ∀ a b : Error,
      Error.beq a b = true ↔ a.code = b.code ∧ a.what = b.what := by
    intro a b
    simp [Error.beq]
  refine ⟨key, ?_, ?_, ?_, ?_, by decide, by decide, by decide⟩
  · intro a
    exact (key a a).2 ⟨rfl, rfl⟩
  · intro a b
    by_cases h : a.code = b.code ∧ a.what = b.what
    · rw [(key a b).2 h, (key b a).2 ⟨h.1.symm, h.2.symm⟩]
    · have h1 : Error.beq a b = false := by
        cases hb : Error.beq a b with
        | false => rfl
        | true => exact absurd ((key a b).1 hb) h
      have h2 : Error.beq b a = false := by
        cases hb : Error.beq b a with
        | false => rfl
        | true =>
          exact absurd ⟨((key b a).1 hb).1.symm, ((key b a).1 hb).2.symm⟩ h
      rw [h1, h2]
  · intro a b c hab hbc
    have fab := (key a b).1 hab
    have fbc := (key b c).1 hbc
    exact (key a c).2 ⟨fab.1.trans fbc.1, fab.2.trans fbc.2⟩
  · intro a b h
    cases hb : Error.beq a b with
    | false => rfl
    | true =>
      rcases h with hc | hw
      · exact absurd ((key a b).1 hb).1 hc
      · exact absurd ((key a b).1 hb).2 hw

/-- Witness for C4: the transitivity component at three equal Errors and the
field-difference component at Errors with differing codes. -/
theorem error_equality_structural_witness :
    Error.beq (Unknown "w") (Unknown "w") = true ∧
    Error.beq (Unknown "w") (Cancelled "w") = false :=
  ⟨error_equality_structural.2.2.2.1 (Unknown "w") (Unknown "w") (Unknown "w")
      (by decide) (by decide),
   error_equality_structural.2.2.2.2.1 (Unknown "w") (Cancelled "w")
      (Or.inl (by decide))⟩

/-- C5: make_result wraps a value into the success variant of a Result: the
Result holds exactly that value, has_error on it is false, and this holds for
every value with no failure path; in particular make_result 5 holds 5. -/
theorem make_result_success :
    (∀ (T E : Type) (v : T),
      (make_result v : Result T E) = Result.value v ∧
      valueOf (make_result v : Result T E) = some v ∧
      has_error (make_result v : Result T E) = false) ∧
    valueOf (make_result 5 : Result Nat Error) = some 5 ∧
    has_error (make_result 5 : Result Nat Error) = false :=
  ⟨fun _ _ _ => ⟨rfl, rfl, rfl⟩, rfl, rfl⟩

/-- C6: has_error returns true iff the Result holds the error variant and
false iff it holds a value; a Result built directly from NotFound "missing"
has has_error true and its extracted error equals NotFound "missing". -/
theorem has_error_iff_error_variant :
    (∀ (T E : Type) (r : Result T E),
      has_error r = true ↔ ∃ e, r = Result.error e) ∧
    (∀ (T E : Type) (r : Result T E),
      has_error r = false ↔ ∃ v, r = Result.value v) ∧
    has_error (Result.error (NotFound "missing") : Result Nat Error) = true ∧
    getError (Result.error (NotFound "missing") : Result Nat Error) =
      some (NotFound "missing") := by
  refine ⟨?_, ?_, rfl, rfl⟩ <;>
    · intro T E r
      cases r <;> simp [has_error, has_value]

/-- C7: for every ErrorCode variant a dedicated named constructor exists,
producing an Error whose code is that variant and whose what equals the
argument passed; the empty string stands for the omitted default argument. -/
theorem named_constructors_contract (s : String) :
    (Unknown s).code = ErrorCode.UNKNOWN ∧ (Unknown s).what = s ∧
    (Cancelled s).code = ErrorCode.CANCELLED ∧ (Cancelled s).what = s ∧
    (InvalidArgument s).code = ErrorCode.INVALID_ARGUMENT ∧
    (InvalidArgument s).what = s ∧
    (Timeout s).code = ErrorCode.TIMEOUT ∧ (Timeout s).what = s ∧
    (NotFound s).code = ErrorCode.NOT_FOUND ∧ (NotFound s).what = s ∧
    (AlreadyExists s).code = ErrorCode.ALREADY_EXISTS ∧
    (AlreadyExists s).what = s ∧
    (PermissionDenied s).code = ErrorCode.PERMISSION_DENIED ∧
    (PermissionDenied s).what = s ∧
    (ResourceExhausted s).code = ErrorCode.RESOURCE_EXHAUSTED ∧
    (ResourceExhausted s).what = s ∧
    (FailedPrecondition s).code = ErrorCode.FAILED_PRECONDITION ∧
    (FailedPrecondition s).what = s ∧
    (Aborted s).code = ErrorCode.ABORTED ∧ (Aborted s).what = s ∧
    (OutOfRange s).code = ErrorCode.OUT_OF_RANGE ∧ (OutOfRange s).what = s ∧
    (Unimplemented s).code = ErrorCode.UNIMPLEMENTED ∧
    (Unimplemented s).what = s ∧
    (Internal s).code = ErrorCode.INTERNAL ∧ (Internal s).what = s ∧
    (Unavailable s).code = ErrorCode.UNAVAILABLE ∧ (Unavailable s).what = s ∧
    (DataLoss s).code = ErrorCode.DATA_LOSS ∧ (DataLoss s).what = s ∧
    (Unauthenticated s).code = ErrorCode.UNAUTHENTICATED ∧
    (Unauthenticated s).what = s ∧
    (Exception s).code = ErrorCode.EXCEPTION ∧ (Exception s).what = s ∧
    (Unknown "").what = "" :=
  ⟨rfl, rfl, rfl, rfl, rfl, rfl, rfl, rfl, rfl, rfl, rfl, rfl, rfl, rfl,
   rfl, rfl, rfl, rfl, rfl, rfl, rfl, rfl, rfl, rfl, rfl, rfl, rfl, rfl,
   rfl, rfl, rfl, rfl, rfl, rfl, rfl⟩

/-- C8: rendering an Error via the display adapter produces an opening
bracket, the word Error, a colon, the bracketed code name from toStringView,
a space, the what text and a closing bracket; rendering NotFound "user 1"
produces exactly "[Error: [NotFound] user 1]". -/
theorem formatError_contract :
    (∀ e : Error,
      formatError e =
        "[Error: [" ++ toStringView e.code ++ "] " ++ e.what ++ "]") ∧
    formatError (NotFound "user 1") = "[Error: [NotFound] user 1]" :=
  ⟨fun _ => rfl, rfl⟩

/-- C9: rendering a Result via the display adapter produces the value form
when it holds a value and the error form, with the error rendered by the
Error display adapter, when it holds an error; an error Result holding
NotFound "x" renders as the nested bracketed string. -/
theorem formatResult_contract :
    (∀ (T : Type) (renderT : T → String) (v : T),
      formatResult renderT (Result.value v) =
        "[Result<T>: value=" ++ renderT v ++ "]") ∧
    (∀ (T : Type) (renderT : T → String) (e : Error),
      formatResult renderT (Result.error e) =
        "[Result<T>: " ++ formatError e ++ "]") ∧
    formatResult (fun n : Nat => toString n) (Result.error (NotFound "x")) =
      "[Result<T>: [Error: [NotFound] x]]" :=
  ⟨fun _ _ _ => rfl, fun _ _ _ => rfl, rfl⟩

end fp
